import Mathlib

set_option maxRecDepth 40000

/-!
Shallow embedding of ptt.c (the kodetroll/ptt serial-port PTT utility) and a
verification of the behavioural properties of its register-control engine and
configuration pipeline.

Conventions of the embedding:
* C int values are Lean Int; unsigned char values are Nat reduced modulo 256
  at stores.
* Bitwise C operators on int operate at 32-bit width; on the byte operands of
  ptt.c only the low 8 bits ever matter, and the complement of a mask is
  taken at 32-bit width (notMask32 below).
* Hardware access (ioperm, inb, outb from sys/io.h) is represented as a trace
  of events; the bytes inb returns are parameters of the run.
* A C stack variable declared without an initializer holds an arbitrary value;
  such values enter the embedding as explicit parameters (nv0 for the local
  new_value of main, junk for the configuration record of load_config).
-/

namespace Ptt

/-! ### Constants from ptt.c (lines 64..133) -/

def ON : Nat := 1

def OFF : Nat := 0

/-- ptt.c line 73: the ERROR sentinel, a C int. -/
def ERROR : Int := -1

/-- ptt.c line 79: number of consecutive ports the ioperm request covers. -/
def MCR_REG_ONLY : Nat := 1

/-- ptt.c line 94: bit 0 drives DTR. -/
def DTR_MASK : Nat := 1

/-- ptt.c line 95: bit 1 drives RTS. -/
def RTS_MASK : Nat := 2

/-- ptt.c line 97: mask of the lower two MCR bits. -/
def MCR_MASK : Nat := 0x03

/-- ptt.c lines 104..109: the control-line enumeration, stored in the
unsigned char global ctrl_line, hence modelled as Nat codes. -/
def CTRL_NONE : Nat := 0

def CTRL_DTR : Nat := 1

def CTRL_RTS : Nat := 2

def CTRL_BOTH : Nat := 3

/-- ptt.c line 115. -/
def MCR_ADDR_OFFSET : Int := 0x04

/-- ptt.c line 124 (the active definition; 0x3FF is commented out). -/
def IO_MASK : Int := 0xFFFF

def DEF_DEVICENAME : String := "/dev/ttyS0"

def DEF_LINENAME : String := "BOTH"

def DEF_CFGFILE : String := "ptt.conf"

def DEF_PORTNUM : Int := 0

/-- Storing a C int into an unsigned char keeps the value modulo 256; the
Int emod by a positive modulus is nonnegative, so toNat is exact (ptt.c
stores the int results of getCtrlLine and atoi into unsigned char fields). -/
def ucharOfInt (i : Int) : Nat := (i % 256).toNat

/-- Complement of a mask at the 32-bit int width at which C evaluates
a tilde on an int literal; ptt.c ANDs the result with a byte, so only the
low 8 bits of the complement are ever used. -/
def notMask32 (m : Nat) : Nat := 0xFFFFFFFF ^^^ m

/-! ### Pure lookup functions of ptt.c -/

/-- getCtrlLine, ptt.c lines 426..445: strcmp chain translating a line-name
string to its CTRL code; unrecognized names yield ERROR. -/
def getCtrlLine (line : String) : Int :=
  if line = "NONE" then (CTRL_NONE : Int)
  else if line = "DTR" then (CTRL_DTR : Int)
  else if line = "RTS" then (CTRL_RTS : Int)
  else if line = "BOTH" then (CTRL_BOTH : Int)
  else ERROR

/-- getCtrlLineName, ptt.c lines 406..424: reverse lookup used for reports. -/
def getCtrlLineName (cline : Int) : String :=
  if cline = (CTRL_NONE : Int) then "NONE"
  else if cline = (CTRL_DTR : Int) then "DTR"
  else if cline = (CTRL_RTS : Int) then "RTS"
  else if cline = (CTRL_BOTH : Int) then "BOTH"
  else "ERROR"

/-- getPortNumber, ptt.c lines 447..469: strcmp chain translating a device
path to a port index; unrecognized names yield -1. -/
def getPortNumber (portname : String) : Int :=
  if portname = "/dev/ttyS0" then 0
  else if portname = "/dev/ttyS1" then 1
  else if portname = "/dev/ttyS2" then 2
  else if portname = "/dev/ttyS3" then 3
  else if portname = "/dev/ttyS4" then 4
  else if portname = "/dev/ttyS5" then 5
  else if portname = "/dev/ttyS6" then 6
  else if portname = "/dev/ttyS7" then 7
  else -1

/-- getPortAddress, ptt.c lines 471..488. The C function ignores its
parameter and switches on the global port_number; main passes that same
global as the argument, so the embedding takes the global's value. The
switch has nine cases, 0..8, and a default of 0x3F8. -/
def getPortAddress (port_number : Int) : Int :=
  if port_number = 0 then 0x3F8
  else if port_number = 1 then 0x2F8
  else if port_number = 2 then 0x3E8
  else if port_number = 3 then 0x2E8
  else if port_number = 4 then 0xec98
  else if port_number = 5 then 0xdcc0
  else if port_number = 6 then 0xdcc8
  else if port_number = 7 then 0xdcd0
  else if port_number = 8 then 0xdcd8
  else 0x3F8

/-! ### The register-value computation of main (ptt.c lines 680..715) -/

/-- Lines 680..706 of ptt.c: the switch on ctrl_line that computes new_value
from old_value and the desired state. new_value is declared without an
initializer, so its value on entry to the switch is an arbitrary byte nv0;
the CTRL_NONE case breaks without assigning, and a ctrl_line byte outside
0..3 matches no case, so both leave nv0 in place. In the CTRL_BOTH branch
the source performs two assignments to new_value whose right-hand sides both
read old_value, so the second (the RTS one) overwrites the first. Stores
into the unsigned char new_value are reduced modulo 256. -/
def mcrSwitch (nv0 old_value : Nat) (ctrl_line : Nat) (value : Nat) : Nat :=
  if ctrl_line = CTRL_NONE then
    nv0
  else if ctrl_line = CTRL_DTR then
    (if value = ON then (DTR_MASK ||| old_value) % 256
     else (notMask32 DTR_MASK &&& old_value) % 256)
  else if ctrl_line = CTRL_RTS then
    (if value = ON then (RTS_MASK ||| old_value) % 256
     else (notMask32 RTS_MASK &&& old_value) % 256)
  else if ctrl_line = CTRL_BOTH then
    let nv1 := if value = ON then (DTR_MASK ||| old_value) % 256
               else (notMask32 DTR_MASK &&& old_value) % 256
    let nv2 := if value = ON then (RTS_MASK ||| old_value) % 256
               else (notMask32 RTS_MASK &&& old_value) % 256
    nv2
  else
    nv0

/-- Line 708 of ptt.c, new_value = MCR_MASK & new_value: the byte main
subsequently sends to the MCR with outb on line 715. -/
def written_value (nv0 old_value : Nat) (ctrl_line : Nat) (value : Nat) : Nat :=
  MCR_MASK &&& mcrSwitch nv0 old_value ctrl_line value

/-! ### The state reports of main -/

/-- print_line_state, ptt.c lines 291..297, used for the before-write
report; this comparison is correctly parenthesized in the source. -/
def print_line_state (bit_mask value : Nat) : Bool :=
  (bit_mask &&& value) == bit_mask

/-- The final DTR report of main (ptt.c lines 732 and 744): the source text
is new_value & DTR_MASK == DTR_MASK, which C parses as
new_value & (DTR_MASK == DTR_MASK); the comparison yields int 1 and the if
tests the AND against zero. -/
def report_dtr_now (new_value : Nat) : Bool :=
  new_value &&& (if DTR_MASK = DTR_MASK then 1 else 0) != 0

/-- The final RTS report of main (ptt.c lines 738 and 748), with the same
parse as the DTR one: the mask compared for equality with itself first. -/
def report_rts_now (new_value : Nat) : Bool :=
  new_value &&& (if RTS_MASK = RTS_MASK then 1 else 0) != 0

/-! ### Configuration: the ini handler, load_config and parse_args -/

/-- Modelled from the spec: atoi is the C library conversion the handler and
parse_args call (libc, not part of src/); it reads an optional sign and then
leading decimal digits, yielding 0 when none are present. -/
def atoi (s : String) : Int :=
  let ds : String → Int := fun t =>
    (t.data.takeWhile Char.isDigit).foldl
      (fun a c => a * 10 + ((c.toNat - 48 : Nat) : Int)) 0
  if s.startsWith "-" then - ds (s.drop 1)
  else if s.startsWith "+" then ds (s.drop 1)
  else ds s

/-- The configuration struct of ptt.c lines 159..171. The instance in
load_config is a stack variable without an initializer, so a run starts
from an arbitrary record. ctrl_line is an unsigned char field. -/
structure Configuration where
  verbose : Int
  quiet : Int
  debug : Int
  level : Int
  port_number : Int
  ctrl_line : Nat
  numlines : Int
  devicename : String
  linename : String

/-- handler, ptt.c lines 178..205: the ini callback matching a
(section, name) pair and storing the value into the configuration record;
sect stands for the section parameter (a Lean keyword). Numeric fields go
through atoi; ControlLine lands in the unsigned char ctrl_line. Unknown
pairs return 0 to the ini library, which main never inspects. -/
def handler (config : Configuration) (sect name value : String) : Configuration :=
  if sect = "DEBUG" ∧ name = "Debug" then { config with debug := atoi value }
  else if sect = "DEBUG" ∧ name = "Verbose" then { config with verbose := atoi value }
  else if sect = "DEBUG" ∧ name = "Quiet" then { config with quiet := atoi value }
  else if sect = "DEBUG" ∧ name = "Level" then { config with level := atoi value }
  else if sect = "DEVICES" ∧ name = "DeviceName" then { config with devicename := value }
  else if sect = "DEVICES" ∧ name = "LineName" then { config with linename := value }
  else if sect = "DEVICES" ∧ name = "ControlLine" then
    { config with ctrl_line := ucharOfInt (atoi value) }
  else if sect = "DEVICES" ∧ name = "PortNumber" then { config with port_number := atoi value }
  else if sect = "LINES" ∧ name = "Lines" then { config with numlines := atoi value }
  else config

/-- The module-level mutable state of ptt.c (lines 135..144): the globals
the configuration pipeline reads and writes. -/
structure Globals where
  verbose : Int
  quiet : Int
  debug : Int
  level : Int
  port_number : Int
  ctrl_line : Nat
  numlines : Int
  devicename : String
  linename : String
  cfgfile : String

/-- load_config, ptt.c lines 208..261, for a configuration file that parses
successfully. ini_parse is external (ini.h is not part of src/) and is
modelled from the spec as delivering (section, key, value) triples to the
handler in file order over the uninitialized stack record junk. Three source
guards are vacuous and modelled accordingly: config.devicename != "" and
config.linename != "" compare a char pointer against the address of a string
literal and always hold, so the strcpy always runs; and
config.ctrl_line != ERROR compares an unsigned char (0..255) with -1 and
always holds, so the getCtrlLine translation stored two lines earlier is
always overwritten by config.ctrl_line. -/
def load_config (g : Globals) (junk : Configuration)
    (file : List (String × String × String)) : Globals :=
  let config := file.foldl (fun c t => handler c t.1 t.2.1 t.2.2) junk
  let g := { g with debug := config.debug, verbose := config.verbose,
                    level := config.level, quiet := config.quiet }
  let g := { g with devicename := config.devicename }
  let g := { g with port_number := getPortNumber g.devicename }
  let g := { g with linename := config.linename }
  let g := { g with ctrl_line := ucharOfInt (getCtrlLine g.linename) }
  let g := if config.port_number ≠ ERROR then { g with port_number := config.port_number } else g
  let g := if config.numlines ≠ ERROR then { g with numlines := config.numlines } else g
  let g := if (config.ctrl_line : Int) ≠ ERROR then { g with ctrl_line := config.ctrl_line } else g
  g

/-- One getopt_long result consumed by parse_args (ptt.c lines 299..404). -/
inductive CliOpt where
  | verboseFlag
  | briefFlag
  | debugFlag
  | nodebugFlag
  | quietFlag
  | unquietFlag
  | device (arg : String)
  | port (arg : String)
  | line (arg : String)
  | file (arg : String)

/-- parse_args, ptt.c lines 299..404: the flag options store 1 or 0 into the
verbose, debug and quiet globals; -d and -l store their argument strings into
devicename and linename; -p converts its argument with atoi into port_number;
-f stores the alternate config-file path. No option writes ctrl_line, and
parse_args never calls getCtrlLine. -/
def parse_args (g : Globals) (opts : List CliOpt) : Globals :=
  opts.foldl
    (fun g o =>
      match o with
      | .verboseFlag => { g with verbose := 1 }
      | .briefFlag => { g with verbose := 0 }
      | .debugFlag => { g with debug := 1 }
      | .nodebugFlag => { g with debug := 0 }
      | .quietFlag => { g with quiet := 1 }
      | .unquietFlag => { g with quiet := 0 }
      | .device a => { g with devicename := a }
      | .port a => { g with port_number := atoi a }
      | .line a => { g with linename := a }
      | .file a => { g with cfgfile := a })
    g

/-- The initialisation at the top of main, ptt.c lines 498..510: compiled-in
defaults, with ctrl_line started at CTRL_DTR. -/
def main_defaults : Globals :=
  { verbose := (OFF : Nat), quiet := (OFF : Nat), debug := (ON : Nat), level := 0,
    port_number := DEF_PORTNUM, ctrl_line := CTRL_DTR, numlines := ERROR,
    devicename := DEF_DEVICENAME, linename := DEF_LINENAME, cfgfile := DEF_CFGFILE }

/-- The configuration phase of main, ptt.c lines 498..531: defaults, then
load_config on the config file, then parse_args on the command line; main
never converts linename to ctrl_line after parse_args returns. -/
def main_config (junk : Configuration) (file : List (String × String × String))
    (opts : List CliOpt) : Globals :=
  parse_args (load_config main_defaults junk file) opts

/-! ### The hardware phase of main as an event trace -/

/-- One privileged port operation of main (sys/io.h calls). -/
inductive HwEvent where
  | ioperm (address : Int) (num : Nat)
  | inb (address : Int)
  | outb (value : Nat) (address : Int)
deriving DecidableEq

/-- True exactly on the permission-acquisition event. -/
def HwEvent.isAcquire : HwEvent → Bool
  | .ioperm _ _ => true
  | _ => false

/-- True exactly on a port read or a port write. -/
def HwEvent.isPortAccess : HwEvent → Bool
  | .inb _ => true
  | .outb _ _ => true
  | _ => false

/-- Outcome of the hardware phase: the ordered port operations, the process
exit status, and the error report when ioperm failed. -/
structure RunResult where
  events : List HwEvent
  exitCode : Int
  errReport : Option String

/-- The MCR register address main computes, ptt.c lines 564..587: the base
address from getPortAddress, plus MCR_ADDR_OFFSET, ANDed with IO_MASK. -/
def mcr_address (port_number : Int) : Int :=
  Int.land (getPortAddress port_number + MCR_ADDR_OFFSET) IO_MASK

/-- The hardware phase of main, ptt.c lines 564..758: one ioperm request for
MCR_REG_ONLY ports at the MCR address and, when it succeeds, inb of the old
value, outb of the masked new value, a read-back inb, and exit(0). When
ioperm returns nonzero main reports the failure with the OS error text
(strerror of errno, the os_error parameter; the error call's printf-style
formatting is abstracted to string concatenation) and returns -1 with no
port read or write. nv0 is the arbitrary initial byte of the uninitialized
new_value; old_value is the byte the first inb returns. -/
def main_run (ctrl_line : Nat) (port_number : Int) (ioperm_ok : Bool)
    (nv0 old_value value : Nat) (os_error : String) : RunResult :=
  let port_address := mcr_address port_number
  if ioperm_ok then
    let nv := written_value nv0 old_value ctrl_line value
    { events := [HwEvent.ioperm port_address MCR_REG_ONLY, HwEvent.inb port_address,
                 HwEvent.outb nv port_address, HwEvent.inb port_address],
      exitCode := 0,
      errReport := none }
  else
    { events := [HwEvent.ioperm port_address MCR_REG_ONLY],
      exitCode := -1,
      errReport := some ("ptt: ioperm failed: " ++ os_error) }

/-! ### Scenario data for the configuration claims -/

/-- A configuration file whose only entry is LineName=DTR in the DEVICES
section. -/
def c2_file : List (String × String × String) := [("DEVICES", "LineName", "DTR")]

/-- A command line passing only --line RTS. -/
def c2_cli : List CliOpt := [CliOpt.line "RTS"]

/-! ### Helper lemmas -/

/-- An unsigned char field read as int is never the ERROR sentinel. -/
lemma uchar_ne_error (n : Nat) : (n : Int) ≠ ERROR := by
  unfold ERROR
  omega

/-- The written byte is bounded by the two-bit mask. -/
lemma written_value_le_mask (nv0 old cl v : Nat) :
    written_value nv0 old cl v ≤ 3 := by
  have h := Nat.and_le_left (n := MCR_MASK) (m := mcrSwitch nv0 old cl v)
  exact h

/-! ### Claim theorems -/

/-- C1 (code bug): evaluating the write path at old value 0x42, selector
RTS, desired OFF: bit 6 of the old value is set, yet the byte sent to the
MCR is 0x00, because line 708 ANDs the computed value with MCR_MASK before
the outb; bits 2..7 of the written byte are not unchanged from the old
value, contradicting the claim (which would require 0x40 here). -/
theorem written_value_does_not_preserve_upper_bits :
    written_value 0 0x42 CTRL_RTS OFF = 0x00 ∧
    Nat.testBit 0x42 6 = true ∧
    Nat.testBit (written_value 0 0x42 CTRL_RTS OFF) 6 = false := by
  decide

/-- C4 (code bug): selector BOTH with desired ON on old value 0x00 writes
0x02, leaving the DTR bit clear: the second assignment of the CTRL_BOTH
branch recomputes from old_value and overwrites the DTR update, so the DTR
bit keeps the old value's bit 0 instead of the desired state. -/
theorem both_on_leaves_dtr_clear :
    written_value 0 0x00 CTRL_BOTH ON = 0x02 ∧
    Nat.testBit (written_value 0 0x00 CTRL_BOTH ON) 0 = false := by
  decide

/-- C5 (code bug): with selector NONE the byte written back is not the byte
read: the switch never assigns new_value, so the write sends the MCR_MASK
AND of the uninitialized byte, which is at most 3 and therefore can never
equal an old value of 0x04, whatever the uninitialized byte held. -/
theorem none_write_differs_from_old :
    ∀ nv0 value : Nat, written_value nv0 0x04 CTRL_NONE value < 0x04 := by
  intro nv0 value
  have h := written_value_le_mask nv0 0x04 CTRL_NONE value
  omega

/-- C6 counterexample: the claim sends every integer outside 0..7 to the
index-0 default, but getPortAddress has a ninth table entry, so input 8
returns 0xdcd8 and not 0x3F8. -/
theorem getPortAddress_eight_not_default :
    getPortAddress 8 = 0xdcd8 ∧ (0xdcd8 : Int) ≠ 0x3F8 := by
  constructor
  · decide
  · decide

/-- C6 amended: for device indices 0..7 getPortAddress returns the
documented table value, index 8 returns the extra table entry 0xdcd8, and
every integer outside 0..8 returns the index-0 default 0x3F8. -/
theorem getPortAddress_table :
    getPortAddress 0 = 0x3F8 ∧ getPortAddress 1 = 0x2F8 ∧
    getPortAddress 2 = 0x3E8 ∧ getPortAddress 3 = 0x2E8 ∧
    getPortAddress 4 = 0xec98 ∧ getPortAddress 5 = 0xdcc0 ∧
    getPortAddress 6 = 0xdcc8 ∧ getPortAddress 7 = 0xdcd0 ∧
    getPortAddress 8 = 0xdcd8 ∧
    ∀ n : Int, (n < 0 ∨ 8 < n) → getPortAddress n = 0x3F8 := by
  refine ⟨by decide, by decide, by decide, by decide, by decide, by decide,
          by decide, by decide, by decide, ?_⟩
  intro n h
  unfold getPortAddress
  split <;> omega

/-- C6 witness: the amended fallback clause applied at the concrete
out-of-table input 9. -/
theorem getPortAddress_table_witness : getPortAddress 9 = 0x3F8 :=
  getPortAddress_table.2.2.2.2.2.2.2.2.2 9 (Or.inr (by decide))

/-- C2 (code bug): with the compiled-in defaults, a configuration file whose
only entry is LineName=DTR, and a command line passing --line RTS, the
effective ctrl_line is the uninitialized config.ctrl_line byte, whatever the
stack record held: parse_args only stores the string "RTS" into linename and
main never converts it, while load_config's vacuous config.ctrl_line !=
ERROR guard overwrites even the file-derived CTRL_DTR with the
uninitialized field. The command-line selector never wins. -/
theorem cli_line_does_not_reach_ctrl_line :
    ∀ junk : Configuration,
      (main_config junk c2_file c2_cli).ctrl_line = junk.ctrl_line ∧
      (main_config junk c2_file c2_cli).linename = "RTS" := by
  intro junk
  simp [main_config, main_defaults, load_config, parse_args, handler, c2_file, c2_cli,
        uchar_ne_error, List.foldl_cons, List.foldl_nil]

/-- C3 (code bug): getCtrlLine does map the unrecognized name FOO to the
ERROR sentinel, but the engine does not refuse to proceed: stored into the
unsigned char ctrl_line the sentinel becomes 255, which matches no switch
case, and the run still issues ioperm, reads the MCR, writes it and exits
with status 0. -/
theorem unknown_line_not_refused :
    getCtrlLine "FOO" = ERROR ∧
    (main_run (ucharOfInt (getCtrlLine "FOO")) 0 true 0 0 1 "").exitCode = 0 ∧
    HwEvent.inb (mcr_address 0) ∈
      (main_run (ucharOfInt (getCtrlLine "FOO")) 0 true 0 0 1 "").events ∧
    HwEvent.outb 0 (mcr_address 0) ∈
      (main_run (ucharOfInt (getCtrlLine "FOO")) 0 true 0 0 1 "").events := by
  decide

/-- C7 (code bug): the final RTS report tests
new_value & (RTS_MASK == RTS_MASK), i.e. bit 0 of the read-back byte: on
read-back 0x02 the claimed predicate (value & RTS_MASK) == RTS_MASK holds,
so the claim requires the report ON, but the code reports OFF. -/
theorem rts_report_tests_wrong_bit :
    report_rts_now 0x02 = false ∧ 0x02 &&& RTS_MASK = RTS_MASK := by
  decide

/-- C8 (confirmed): every run issues exactly one ioperm request, as its
first hardware action, for MCR_REG_ONLY = 1 port at the resolved MCR
address; and a run whose ioperm fails performs no port read or write,
reports the OS error text and returns -1. -/
theorem ioperm_once_first_single_byte :
    ∀ (cl : Nat) (pn : Int) (ok : Bool) (nv0 old v : Nat) (os : String),
      (main_run cl pn ok nv0 old v os).events.countP (fun e => e.isAcquire) = 1 ∧
      (main_run cl pn ok nv0 old v os).events.head? =
        some (HwEvent.ioperm (mcr_address pn) MCR_REG_ONLY) ∧
      MCR_REG_ONLY = 1 ∧
      (main_run cl pn false nv0 old v os).events.filter (fun e => e.isPortAccess) = [] ∧
      (main_run cl pn false nv0 old v os).exitCode = -1 ∧
      (main_run cl pn false nv0 old v os).errReport = some ("ptt: ioperm failed: " ++ os) := by
  intro cl pn ok nv0 old v os
  cases ok <;>
    simp [main_run, HwEvent.isAcquire, HwEvent.isPortAccess,
          List.countP_cons, List.countP_nil, MCR_REG_ONLY]

/-- C9 (confirmed): the write computation is idempotent: recomputing from
its own output with the same selector and desired value yields the same
byte, for every selector byte (the four enumerated codes and every
fall-through value) and every desired value. -/
theorem written_value_idempotent :
    ∀ nv0 old cl v : Nat, nv0 < 256 → old < 256 →
      written_value nv0 (written_value nv0 old cl v) cl v =
        written_value nv0 old cl v := by
  intro nv0 old cl v hn ho
  rcases Nat.lt_or_ge cl 4 with h | h
  · interval_cases cl
    · rfl
    · by_cases hv : v = ON
      · subst hv
        simp only [written_value, mcrSwitch, CTRL_NONE, CTRL_DTR, CTRL_RTS, CTRL_BOTH,
                   ON, DTR_MASK, RTS_MASK, MCR_MASK, notMask32]
        norm_num
        revert old
        decide
      · simp only [written_value, mcrSwitch, if_neg hv, CTRL_NONE, CTRL_DTR, CTRL_RTS,
                   CTRL_BOTH, DTR_MASK, RTS_MASK, MCR_MASK, notMask32]
        norm_num
        revert old
        decide
    · by_cases hv : v = ON
      · subst hv
        simp only [written_value, mcrSwitch, CTRL_NONE, CTRL_DTR, CTRL_RTS, CTRL_BOTH,
                   ON, DTR_MASK, RTS_MASK, MCR_MASK, notMask32]
        norm_num
        revert old
        decide
      · simp only [written_value, mcrSwitch, if_neg hv, CTRL_NONE, CTRL_DTR, CTRL_RTS,
                   CTRL_BOTH, DTR_MASK, RTS_MASK, MCR_MASK, notMask32]
        norm_num
        revert old
        decide
    · by_cases hv : v = ON
      · subst hv
        simp only [written_value, mcrSwitch, CTRL_NONE, CTRL_DTR, CTRL_RTS, CTRL_BOTH,
                   ON, DTR_MASK, RTS_MASK, MCR_MASK, notMask32]
        norm_num
        revert old
        decide
      · simp only [written_value, mcrSwitch, if_neg hv, CTRL_NONE, CTRL_DTR, CTRL_RTS,
                   CTRL_BOTH, DTR_MASK, RTS_MASK, MCR_MASK, notMask32]
        norm_num
        revert old
        decide
  · have h0 : cl ≠ CTRL_NONE := by unfold CTRL_NONE; omega
    have h1 : cl ≠ CTRL_DTR := by unfold CTRL_DTR; omega
    have h2 : cl ≠ CTRL_RTS := by unfold CTRL_RTS; omega
    have h3 : cl ≠ CTRL_BOTH := by unfold CTRL_BOTH; omega
    simp only [written_value, mcrSwitch, if_neg h0, if_neg h1, if_neg h2, if_neg h3]

/-- C9 witness: idempotence applied at the concrete input of the spec's
regression scenario, old value 0x42, selector RTS, desired OFF. -/
theorem written_value_idempotent_witness :
    written_value 0 (written_value 0 0x42 CTRL_RTS OFF) CTRL_RTS OFF =
      written_value 0 0x42 CTRL_RTS OFF :=
  written_value_idempotent 0 0x42 CTRL_RTS OFF (by decide) (by decide)

/-- C10 (confirmed): for the DTR, RTS and BOTH selectors (and in fact for
every selector) the byte sent to outb is the switch result ANDed with
MCR_MASK on line 708, hence at most 3, with bits 2 through 7 all zero. -/
theorem written_value_in_mask_range :
    ∀ nv0 old v cl : Nat, (cl = CTRL_DTR ∨ cl = CTRL_RTS ∨ cl = CTRL_BOTH) →
      written_value nv0 old cl v ≤ 3 ∧
      ∀ i : Nat, 2 ≤ i → Nat.testBit (written_value nv0 old cl v) i = false := by
  intro nv0 old v cl _
  refine ⟨written_value_le_mask nv0 old cl v, ?_⟩
  intro i hi
  apply Nat.testBit_lt_two_pow
  have h1 : written_value nv0 old cl v ≤ 3 := written_value_le_mask nv0 old cl v
  have h2 : (4 : Nat) ≤ 2 ^ i := by
    calc (4 : Nat) = 2 ^ 2 := by norm_num
    _ ≤ 2 ^ i := Nat.pow_le_pow_right (by norm_num) hi
  omega

/-- C10 witness: the masked-write invariant applied at old value 0xFF,
selector DTR, desired ON, checking bit 5 of the written byte. -/
theorem written_value_in_mask_range_witness :
    written_value 0 0xFF CTRL_DTR ON ≤ 3 ∧
    Nat.testBit (written_value 0 0xFF CTRL_DTR ON) 5 = false :=
  ⟨(written_value_in_mask_range 0 0xFF ON CTRL_DTR (Or.inl rfl)).1,
   (written_value_in_mask_range 0 0xFF ON CTRL_DTR (Or.inl rfl)).2 5 (by decide)⟩

end Ptt
